import Mathlib

/-!
Verification of the dual-relay blind motion controller of
`homebridge-ewelink` (`src/index.js`).

The controller keeps its whole mutable state on `accessory.context`; we
embed those fields in the structure `BlindContext` below.  Timestamps and
positions are JavaScript numbers; all arithmetic performed by the
controller (addition, subtraction, multiplication, division and
`Math.round`) stays inside the rationals, so we model numbers by `ℚ`.
`Math.round` rounds half-way cases toward positive infinity, which is
`⌊q + 1/2⌋`.

Position-state encoding used throughout the source:
`0` = moving up, `1` = moving down, `2` = stopped/idle, `3` = error
(both relays reported energized).
-/

/-- JavaScript `Math.round`: nearest integer, halves toward `+∞`. -/
def jsRound (q : ℚ) : ℤ := ⌊q + 1/2⌋

/-- The per-accessory state and configuration kept on `accessory.context`
in `src/index.js`.  `durationUp`/`durationDown` are the configured travel
times in seconds (`time_up`, `time_down`), `durationBMU`/`durationBMD`
the bottom-margin times, `fullOverdrive` the overdrive time;
`percentDurationUp = durationUp / 100 * 1000` (milliseconds per percent)
and symmetrically for down, as set in `configureAccessory`/`addAccessory`. -/
structure BlindContext where
  lastPosition : ℚ
  currentTargetPosition : ℚ
  currentPositionState : ℕ
  startTimestamp : ℚ
  targetTimestamp : ℚ
  durationUp : ℚ
  durationDown : ℚ
  durationBMU : ℚ
  durationBMD : ℚ
  fullOverdrive : ℚ
  percentDurationUp : ℚ
  percentDurationDown : ℚ
deriving DecidableEq, Repr

/-- Embedding of `eWeLink.prototype.actualPosition` (src/index.js:1615-1624): the
time-based position estimate.  `now` stands for the `Date.now()` call at
the top of the function. -/
def actualPosition (a : BlindContext) (now : ℚ) : ℚ :=
  if a.currentPositionState = 1 then
    ((jsRound (a.lastPosition - (now - a.startTimestamp) / a.percentDurationDown) : ℤ) : ℚ)
  else if a.currentPositionState = 0 then
    ((jsRound (a.lastPosition + (now - a.startTimestamp) / a.percentDurationUp) : ℤ) : ℚ)
  else
    a.lastPosition

/-- Embedding of `eWeLink.prototype.getCurrentPosition` (src/index.js:1365-1373): it
reads `accessory.context.lastPosition`, substituting `0` when the field
is `undefined`, and reports that value. -/
def getCurrentPosition (lastPosition : Option ℚ) : ℚ :=
  match lastPosition with
  | none => 0
  | some p => p

/-- Embedding of `eWeLink.prototype.prepareBlindSwitchesPayload` (src/index.js:1571-1613):
encodes a position state as the `(up, down)` relay pair written into the
payload (`true` = `'on'`).  The `default` branch of the `switch` leaves
both local variables at their initial `'off'`. -/
def prepareBlindSwitchesPayload (state : ℕ) : Bool × Bool :=
  match state with
  | 0 => (true, false)
  | 1 => (false, true)
  | 2 => (false, false)
  | _ => (false, false)

/-- Embedding of `eWeLink.prototype.getBlindState` (src/index.js:1335-1364): decodes
the `(up, down)` relay pair (`true` = `'on'`) into a position state via
`sum = 2·up + down` and the table `{0 ↦ 2, 1 ↦ 1, 2 ↦ 0, 3 ↦ 3}`. -/
def getBlindState (up down : Bool) : ℕ :=
  let sum : ℕ := (if up then 2 else 0) + (if down then 1 else 0)
  if sum = 0 then 2
  else if sum = 1 then 1
  else if sum = 2 then 0
  else 3

/-- The `diffTime` quantity of `setTargetPosition` (src/index.js:1438-1444):
`Math.round` of the signed position difference times the per-percent
duration of the current direction of travel. -/
def diffTimeOf (a : BlindContext) (pos : ℚ) : ℚ :=
  if a.currentPositionState = 1 then
    ((jsRound (a.percentDurationDown * (a.currentTargetPosition - pos)) : ℤ) : ℚ)
  else
    ((jsRound (a.percentDurationUp * (pos - a.currentTargetPosition)) : ℤ) : ℚ)

/-- The moving half of `eWeLink.prototype.setTargetPosition`
(src/index.js:1426-1484), entered when `currentPositionState != 2`.
Returns the new context and the relay command sent through
`updateDeviceStatus`, if any. -/
def setTargetMoving (a : BlindContext) (pos now : ℚ) : BlindContext × Option (Bool × Bool) :=
  if pos = a.currentTargetPosition then (a, none)
  else
    let diffTime := diffTimeOf a pos
    let diff := (a.targetTimestamp - now) + diffTime
    if 0 < diff then
      ({ a with targetTimestamp := a.targetTimestamp + diffTime
                currentTargetPosition := pos }, none)
    else if diff < 0 then
      let ns : ℕ := if a.currentPositionState = 0 then 1 else 0
      ({ a with startTimestamp := now
                targetTimestamp := now + |diff|
                lastPosition := actualPosition a now
                currentTargetPosition := pos
                currentPositionState := ns },
       some (prepareBlindSwitchesPayload ns))
    else (a, none)

/-- The `duration` computed by the idle half of `setTargetPosition`
(src/index.js:1495-1515), in seconds, before the final rounding to two
decimal places: proportional share of the margin-free travel time, the
bottom margin added when an up-move starts at 0 or a down-move ends at 0,
and the overdrive added when the target is exactly 0 or 100. -/
def plannedDuration (a : BlindContext) (pos : ℚ) : ℚ :=
  let moveUp := a.lastPosition < pos
  let withoutmarginetimeUP := a.durationUp - a.durationBMU
  let withoutmarginetimeDOWN := a.durationDown - a.durationBMD
  let d0 : ℚ :=
    if moveUp then
      if a.lastPosition = 0 then
        (pos - a.lastPosition) / 100 * withoutmarginetimeUP + a.durationBMU
      else
        (pos - a.lastPosition) / 100 * withoutmarginetimeUP
    else
      if pos = 0 then
        (a.lastPosition - pos) / 100 * withoutmarginetimeDOWN + a.durationBMD
      else
        (a.lastPosition - pos) / 100 * withoutmarginetimeDOWN
  if pos = 0 ∨ pos = 100 then d0 + a.fullOverdrive else d0

/-- The planned move duration in the words of the specification (claim
C3): `|pos − restPosition| / 100 × (travelTime − margin)` for the chosen
direction, plus the margin constant only when an up-move starts at
position 0 or a down-move ends at position 0, plus the overdrive when
the target is exactly 0 or 100.  Written from the specification, to be
compared with `plannedDuration` taken from the source. -/
def specPlannedDuration (a : BlindContext) (pos : ℚ) : ℚ :=
  |pos - a.lastPosition| / 100 *
      (if a.lastPosition < pos then a.durationUp - a.durationBMU
       else a.durationDown - a.durationBMD)
    + (if a.lastPosition < pos ∧ a.lastPosition = 0 then a.durationBMU else 0)
    + (if ¬ a.lastPosition < pos ∧ pos = 0 then a.durationBMD else 0)
    + (if pos = 0 ∨ pos = 100 then a.fullOverdrive else 0)

/-- The idle half of `eWeLink.prototype.setTargetPosition`
(src/index.js:1486-1543), entered when `currentPositionState == 2`. -/
def setTargetIdle (a : BlindContext) (pos now : ℚ) : BlindContext × Option (Bool × Bool) :=
  if a.lastPosition = pos then (a, none)
  else
    let duration : ℚ := ((jsRound (plannedDuration a pos * 100) : ℤ) : ℚ) / 100
    let st : ℕ := if a.lastPosition < pos then 0 else 1
    ({ a with currentTargetPosition := pos
              startTimestamp := now
              targetTimestamp := now + duration * 1000
              currentPositionState := st },
     some (prepareBlindSwitchesPayload st))

/-- Embedding of `eWeLink.prototype.setTargetPosition` (src/index.js:1419-1543):
dispatches on whether a motion is in flight. -/
def setTargetPosition (a : BlindContext) (pos now : ℚ) : BlindContext × Option (Bool × Bool) :=
  if a.currentPositionState ≠ 2 then setTargetMoving a pos now
  else setTargetIdle a pos now

/-- Embedding of `eWeLink.prototype.setFinalBlindsState` (src/index.js:1545-1569):
sets the state to stopped, emits the both-relays-off payload (the payload
is prepared after the state is set to `2`), and makes the commanded
target the new resting position. -/
def setFinalBlindsState (a : BlindContext) : BlindContext × (Bool × Bool) :=
  ({ a with currentPositionState := 2
            lastPosition := a.currentTargetPosition },
   prepareBlindSwitchesPayload 2)

/-- The scheduler interval armed in `setTargetPosition`
(src/index.js:1534-1540): a 100 ms interval exists exactly while a motion
is in flight (it is created when a motion starts and `clearInterval`ed by
its own firing, which runs `setFinalBlindsState` and hence sets the state
to `2`); it invokes `setFinalBlindsState` at the first tick with
`Date.now() >= targetTimestamp`. -/
def schedulerFires (a : BlindContext) (t : ℚ) : Prop :=
  a.currentPositionState ≠ 2 ∧ a.targetTimestamp ≤ t

instance (a : BlindContext) (t : ℚ) : Decidable (schedulerFires a t) := by
  unfold schedulerFires
  infer_instance

/-- Embedding of `eWeLink.prototype.updateBlindStateCharacteristic`
(src/index.js:763-844): the reconciliation of an externally observed
relay pair.  `service.setCharacteristic(Characteristic.TargetPosition, v)`
triggers the registered `set` handler, i.e. calls `setTargetPosition`
with value `v` (the source itself notes at src/index.js:1560 that
`updateValue` — not used here — is the variant that avoids this).
Returns the new context, the list of relay commands emitted (by nested
`setTargetPosition`/`setFinalBlindsState` calls), and whether
`setFinalBlindsState` was invoked directly by the handler. -/
def updateBlindStateCharacteristic (a : BlindContext) (up down : Bool) (now : ℚ) :
    BlindContext × List (Bool × Bool) × Bool :=
  let state := getBlindState up down
  if state = 3 then
    let ap := actualPosition a now
    let a1 := { a with currentTargetPosition := ap, targetTimestamp := now + 10 }
    let r := setTargetPosition a1 ap now
    (r.1, r.2.toList, false)
  else if state = 2 then
    if a.currentPositionState = 2 then (a, [], false)
    else
      let ap := actualPosition a now
      let a1 := { a with currentTargetPosition := ap, targetTimestamp := now + 10 }
      let r := setTargetPosition a1 ap now
      (r.1, r.2.toList, false)
  else if state = 1 then
    if a.currentPositionState = 1 then (a, [], false)
    else if a.currentTargetPosition = 0 then
      let r := setFinalBlindsState a
      (r.1, [r.2], true)
    else
      let r := setTargetPosition a 0 now
      (r.1, r.2.toList, false)
  else
    if a.currentPositionState = 0 then (a, [], false)
    else if a.currentTargetPosition = 100 then
      let r := setFinalBlindsState a
      (r.1, [r.2], true)
    else
      let r := setTargetPosition a 100 now
      (r.1, r.2.toList, false)

/-- The restore logic of `configureAccessory` for window coverings
(src/index.js:222-233): a missing or negative persisted `lastPosition`
defaults to `0`; `currentTargetPosition` is set to the restored
`lastPosition` and `currentPositionState` to `2`.  Returns
`(lastPosition, currentTargetPosition, currentPositionState)`. -/
def configureAccessoryRestore (saved : Option ℚ) : ℚ × ℚ × ℕ :=
  match saved with
  | none => (0, 0, 2)
  | some p => if p < 0 then (0, 0, 2) else (p, p, 2)

/-- The blind initialisation of `addAccessory` (src/index.js:446-448):
`lastPosition = 100`, `currentTargetPosition = 100`,
`currentPositionState = 2`. -/
def addAccessoryBlindInit : ℚ × ℚ × ℕ :=
  (100, 100, 2)

/-! Concrete contexts used to instantiate the theorems below.  The
standard configuration is the one of the specification scenarios:
`time_up = time_down = 20` seconds (a 20000 ms full traversal, hence
200 ms per percent), no bottom margins, no overdrive. -/

/-- Standard-config accessory resting at position 0. -/
def ctxRest0 : BlindContext :=
  { lastPosition := 0, currentTargetPosition := 0, currentPositionState := 2,
    startTimestamp := 0, targetTimestamp := 0,
    durationUp := 20, durationDown := 20, durationBMU := 0, durationBMD := 0,
    fullOverdrive := 0, percentDurationUp := 200, percentDurationDown := 200 }

/-- Standard-config accessory moving up from 0 toward 50 since `t = 0`. -/
def ctxMovingUp : BlindContext :=
  { lastPosition := 0, currentTargetPosition := 50, currentPositionState := 0,
    startTimestamp := 0, targetTimestamp := 10000,
    durationUp := 20, durationDown := 20, durationBMU := 0, durationBMD := 0,
    fullOverdrive := 0, percentDurationUp := 200, percentDurationDown := 200 }

/-- Accessory resting at 0 with an overdrive configuration of 2 seconds. -/
def ctxOverdrive : BlindContext :=
  { lastPosition := 0, currentTargetPosition := 0, currentPositionState := 2,
    startTimestamp := 0, targetTimestamp := 0,
    durationUp := 20, durationDown := 20, durationBMU := 0, durationBMD := 0,
    fullOverdrive := 2, percentDurationUp := 200, percentDurationDown := 200 }

/-- Accessory resting at 50 whose configured up-travel time is 1.234
seconds, a value that is not a whole number of centiseconds per percent. -/
def ctxFracConfig : BlindContext :=
  { lastPosition := 50, currentTargetPosition := 50, currentPositionState := 2,
    startTimestamp := 0, targetTimestamp := 0,
    durationUp := 1234/1000, durationDown := 20, durationBMU := 0, durationBMD := 0,
    fullOverdrive := 0, percentDurationUp := 1234/100, percentDurationDown := 200 }

/-- Standard-config accessory moving up although already at position 100
(as during an overdrive-compensated move). -/
def ctxBeyond : BlindContext :=
  { lastPosition := 100, currentTargetPosition := 100, currentPositionState := 0,
    startTimestamp := 0, targetTimestamp := 2000,
    durationUp := 20, durationDown := 20, durationBMU := 0, durationBMD := 0,
    fullOverdrive := 0, percentDurationUp := 200, percentDurationDown := 200 }

/-- Standard-config accessory resting at 50. -/
def ctxIdle50 : BlindContext :=
  { lastPosition := 50, currentTargetPosition := 50, currentPositionState := 2,
    startTimestamp := 0, targetTimestamp := 0,
    durationUp := 20, durationDown := 20, durationBMU := 0, durationBMD := 0,
    fullOverdrive := 0, percentDurationUp := 200, percentDurationDown := 200 }

/-- Standard-config accessory moving up from 0 toward 100 since `t = 0`
(specification scenario 4 reaches estimate 60 at `t = 12000`). -/
def ctxScenario4 : BlindContext :=
  { lastPosition := 0, currentTargetPosition := 100, currentPositionState := 0,
    startTimestamp := 0, targetTimestamp := 20000,
    durationUp := 20, durationDown := 20, durationBMU := 0, durationBMD := 0,
    fullOverdrive := 0, percentDurationUp := 200, percentDurationDown := 200 }

/-- Standard-config accessory moving up toward 100 whose remaining time
at `t = 5000` is exactly cancelled by a retarget to 50 (`diff = 0`). -/
def ctxDiffZero : BlindContext :=
  { lastPosition := 0, currentTargetPosition := 100, currentPositionState := 0,
    startTimestamp := 0, targetTimestamp := 15000,
    durationUp := 20, durationDown := 20, durationBMU := 0, durationBMD := 0,
    fullOverdrive := 0, percentDurationUp := 200, percentDurationDown := 200 }

/-- Claim C5: decoding the relay pair produced by encoding any of the
three valid directions yields the direction back, and the
both-relays-energized pair decodes to the error value `3`, distinct from
all three valid directions. -/
theorem blindState_roundTrip :
    (getBlindState (prepareBlindSwitchesPayload 0).1 (prepareBlindSwitchesPayload 0).2 = 0) ∧
    (getBlindState (prepareBlindSwitchesPayload 1).1 (prepareBlindSwitchesPayload 1).2 = 1) ∧
    (getBlindState (prepareBlindSwitchesPayload 2).1 (prepareBlindSwitchesPayload 2).2 = 2) ∧
    getBlindState true true = 3 ∧
    getBlindState true true ≠ 0 ∧ getBlindState true true ≠ 1 ∧ getBlindState true true ≠ 2 := by
  decide

/-- Claim C4: `actualPosition` returns the rest position when idle,
`round(rest + elapsed / msPerPercentUp)` when moving up,
`round(rest - elapsed / msPerPercentDown)` when moving down, and is not
clamped: some moving state and clock reading produce a value above 100. -/
theorem actualPosition_cases (a : BlindContext) (now : ℚ) :
    (a.currentPositionState = 2 → actualPosition a now = a.lastPosition) ∧
    (a.currentPositionState = 0 → actualPosition a now =
      ((jsRound (a.lastPosition + (now - a.startTimestamp) / a.percentDurationUp) : ℤ) : ℚ)) ∧
    (a.currentPositionState = 1 → actualPosition a now =
      ((jsRound (a.lastPosition - (now - a.startTimestamp) / a.percentDurationDown) : ℤ) : ℚ)) ∧
    (∃ b : BlindContext, ∃ t : ℚ, b.currentPositionState ≠ 2 ∧ 100 < actualPosition b t) := by
  refine ⟨fun h => ?_, fun h => ?_, fun h => ?_, ⟨ctxBeyond, 1000, ?_, ?_⟩⟩
  · simp [actualPosition, h]
  · simp [actualPosition, h]
  · simp [actualPosition, h]
  · norm_num [ctxBeyond]
  · norm_num [actualPosition, ctxBeyond, jsRound]

/-- Witness for claim C4: the accessory moving up from 0 since `t = 0` at
200 ms per percent is estimated at position 25 at `t = 5000`. -/
theorem actualPosition_cases_witness : actualPosition ctxMovingUp 5000 = 25 := by
  have h := (actualPosition_cases ctxMovingUp 5000).2.1 rfl
  rw [h]
  norm_num [ctxMovingUp, jsRound]

/-- Claim C8 (amended): `getCurrentPosition` reports the stored
`lastPosition` (substituting 0 when it is undefined); while idle this
coincides with the time-based estimate, but it is not the interpolated
estimate. -/
theorem getCurrentPosition_returnsRest (a : BlindContext) (now : ℚ) :
    getCurrentPosition (some a.lastPosition) = a.lastPosition ∧
    getCurrentPosition none = 0 ∧
    (a.currentPositionState = 2 → getCurrentPosition (some a.lastPosition) = actualPosition a now) := by
  refine ⟨rfl, rfl, fun h => ?_⟩
  simp [getCurrentPosition, actualPosition, h]

/-- Witness for claim C8 (amended): on an idle accessory the reported
position agrees with the estimate. -/
theorem getCurrentPosition_returnsRest_witness :
    getCurrentPosition (some ctxIdle50.lastPosition) = actualPosition ctxIdle50 123 :=
  (getCurrentPosition_returnsRest ctxIdle50 123).2.2 rfl

/-- Counterexample to claim C8 as stated: while moving (state `0`,
in flight from 0 since `t = 0`), `getCurrentPosition` reports the stored
rest position 0, not the interpolated estimate 25 at `t = 5000`. -/
theorem getCurrentPosition_not_estimate_cex :
    ctxMovingUp.currentPositionState ≠ 2 ∧
    getCurrentPosition (some ctxMovingUp.lastPosition) = 0 ∧
    actualPosition ctxMovingUp 5000 = 25 ∧
    getCurrentPosition (some ctxMovingUp.lastPosition) ≠ actualPosition ctxMovingUp 5000 := by
  norm_num [getCurrentPosition, actualPosition, ctxMovingUp, jsRound]

/-- Claim C10: restoring a cached accessory resets the state to stopped
with `currentTargetPosition = lastPosition`; a missing or negative
persisted position defaults to 0 (not the 100 used at first
provisioning), and `getCurrentPosition` substitutes 0 for an undefined
position as well. -/
theorem configureAccessory_restore_defaults :
    (∀ saved : Option ℚ,
      (configureAccessoryRestore saved).2.2 = 2 ∧
      (configureAccessoryRestore saved).2.1 = (configureAccessoryRestore saved).1) ∧
    configureAccessoryRestore none = (0, 0, 2) ∧
    (∀ p : ℚ, p < 0 → configureAccessoryRestore (some p) = (0, 0, 2)) ∧
    addAccessoryBlindInit = (100, 100, 2) ∧
    (configureAccessoryRestore none).1 ≠ addAccessoryBlindInit.1 ∧
    getCurrentPosition none = 0 := by
  refine ⟨fun saved => ?_, rfl, fun p hp => ?_, rfl, ?_, rfl⟩
  · cases saved with
    | none => exact ⟨rfl, rfl⟩
    | some p =>
      by_cases hp : p < 0 <;> simp [configureAccessoryRestore, hp]
  · simp [configureAccessoryRestore, hp]
  · norm_num [configureAccessoryRestore, addAccessoryBlindInit]

/-- Witness for claim C10: a persisted position of `-5` is replaced by
the default `0`. -/
theorem configureAccessory_restore_defaults_witness :
    configureAccessoryRestore (some (-5)) = (0, 0, 2) :=
  configureAccessory_restore_defaults.2.2.1 (-5) (by norm_num)

/-- Claim C1: retargeting a moving blind to a point behind current travel
(`diff < 0`) reverses the motion: the direction flips, the rest position
becomes the time-based estimate at the reversal instant, the movement
start is reset to `now`, the completion deadline becomes `now + |diff|`,
the target becomes the requested position, and the relay command for the
new direction is emitted. -/
theorem setTargetPosition_reversal (a : BlindContext) (pos now : ℚ)
    (hmv : a.currentPositionState = 0 ∨ a.currentPositionState = 1)
    (hne : pos ≠ a.currentTargetPosition)
    (hdiff : (a.targetTimestamp - now) + diffTimeOf a pos < 0) :
    setTargetPosition a pos now =
      ({ a with startTimestamp := now
                targetTimestamp := now + |(a.targetTimestamp - now) + diffTimeOf a pos|
                lastPosition := actualPosition a now
                currentTargetPosition := pos
                currentPositionState := if a.currentPositionState = 0 then 1 else 0 },
       some (prepareBlindSwitchesPayload (if a.currentPositionState = 0 then 1 else 0))) ∧
    (a.currentPositionState = 0 → (setTargetPosition a pos now).1.currentPositionState = 1) ∧
    (a.currentPositionState = 1 → (setTargetPosition a pos now).1.currentPositionState = 0) := by
  have h2 : a.currentPositionState ≠ 2 := by rcases hmv with h | h <;> simp [h]
  have hnpos : ¬ (0 < (a.targetTimestamp - now) + diffTimeOf a pos) := not_lt.mpr hdiff.le
  have hmain : setTargetPosition a pos now =
      ({ a with startTimestamp := now
                targetTimestamp := now + |(a.targetTimestamp - now) + diffTimeOf a pos|
                lastPosition := actualPosition a now
                currentTargetPosition := pos
                currentPositionState := if a.currentPositionState = 0 then 1 else 0 },
       some (prepareBlindSwitchesPayload (if a.currentPositionState = 0 then 1 else 0))) := by
    simp only [setTargetPosition, if_pos h2, setTargetMoving, if_neg hne, if_neg hnpos,
      if_pos hdiff]
  refine ⟨hmain, fun h0 => ?_, fun h1 => ?_⟩
  · rw [hmain]
    simp [h0]
  · rw [hmain]
    simp [h1]

/-- Witness for claim C1 (specification scenario 3): standard config,
`SetTarget(100)` at `t = 0` from rest 0, then `SetTarget(0)` at
`t = 5000` reverses with rest position 25, direction moving-down,
movement start 5000 and deadline 10000, emitting the down command. -/
theorem setTargetPosition_reversal_scenario :
    (setTargetPosition (setTargetPosition ctxRest0 100 0).1 0 5000).1.lastPosition = 25 ∧
    (setTargetPosition (setTargetPosition ctxRest0 100 0).1 0 5000).1.currentPositionState = 1 ∧
    (setTargetPosition (setTargetPosition ctxRest0 100 0).1 0 5000).1.startTimestamp = 5000 ∧
    (setTargetPosition (setTargetPosition ctxRest0 100 0).1 0 5000).1.targetTimestamp = 10000 ∧
    (setTargetPosition (setTargetPosition ctxRest0 100 0).1 0 5000).1.currentTargetPosition = 0 ∧
    (setTargetPosition (setTargetPosition ctxRest0 100 0).1 0 5000).2 = some (false, true) := by
  have h := setTargetPosition_reversal (setTargetPosition ctxRest0 100 0).1 0 5000
    (Or.inl (by norm_num [setTargetPosition, setTargetIdle, plannedDuration, ctxRest0, jsRound]))
    (by norm_num [setTargetPosition, setTargetIdle, plannedDuration, ctxRest0, jsRound])
    (by norm_num [setTargetPosition, setTargetIdle, plannedDuration, diffTimeOf, ctxRest0, jsRound])
  rw [h.1]
  norm_num [setTargetPosition, setTargetIdle, plannedDuration, actualPosition, diffTimeOf,
    prepareBlindSwitchesPayload, ctxRest0, jsRound]

/-- Claim C2: retargeting a moving blind to a point still ahead along the
current direction (`diff > 0`) only extends the completion deadline by
exactly `diffTime` and replaces the target; direction, rest position and
movement start are untouched and no relay command is emitted. -/
theorem setTargetPosition_sameDirection (a : BlindContext) (pos now : ℚ)
    (hmv : a.currentPositionState = 0 ∨ a.currentPositionState = 1)
    (hne : pos ≠ a.currentTargetPosition)
    (hdiff : 0 < (a.targetTimestamp - now) + diffTimeOf a pos) :
    setTargetPosition a pos now =
      ({ a with targetTimestamp := a.targetTimestamp + diffTimeOf a pos
                currentTargetPosition := pos }, none) ∧
    (setTargetPosition a pos now).1.currentPositionState = a.currentPositionState ∧
    (setTargetPosition a pos now).1.lastPosition = a.lastPosition ∧
    (setTargetPosition a pos now).1.startTimestamp = a.startTimestamp ∧
    (setTargetPosition a pos now).2 = none := by
  have h2 : a.currentPositionState ≠ 2 := by rcases hmv with h | h <;> simp [h]
  have hmain : setTargetPosition a pos now =
      ({ a with targetTimestamp := a.targetTimestamp + diffTimeOf a pos
                currentTargetPosition := pos }, none) := by
    simp only [setTargetPosition, if_pos h2, setTargetMoving, if_neg hne, if_pos hdiff]
  exact ⟨hmain, by rw [hmain], by rw [hmain], by rw [hmain], by rw [hmain]⟩

/-- Witness for claim C2: moving up from 0 toward 50 (deadline 10000),
retargeting to 80 at `t = 2000` gives `diffTime = 6000 > 0`, so only the
deadline (now 16000) and the target change and nothing is sent. -/
theorem setTargetPosition_sameDirection_witness :
    (setTargetPosition ctxMovingUp 80 2000).1.targetTimestamp = 16000 ∧
    (setTargetPosition ctxMovingUp 80 2000).1.currentTargetPosition = 80 ∧
    (setTargetPosition ctxMovingUp 80 2000).1.currentPositionState = 0 ∧
    (setTargetPosition ctxMovingUp 80 2000).1.lastPosition = 0 ∧
    (setTargetPosition ctxMovingUp 80 2000).1.startTimestamp = 0 ∧
    (setTargetPosition ctxMovingUp 80 2000).2 = none := by
  have h := setTargetPosition_sameDirection ctxMovingUp 80 2000 (Or.inl rfl)
    (by norm_num [ctxMovingUp]) (by norm_num [diffTimeOf, ctxMovingUp, jsRound])
  rw [h.1]
  norm_num [diffTimeOf, ctxMovingUp, jsRound]

/-- Claim C9 (amended): when the computed `diff` is exactly 0 while
moving, `setTargetPosition` changes nothing at all — unlike the
`diff > 0` case, the target is not replaced, the deadline is not
extended, and no relay command is emitted. -/
theorem setTargetPosition_diffZero_noop (a : BlindContext) (pos now : ℚ)
    (hmv : a.currentPositionState = 0 ∨ a.currentPositionState = 1)
    (hne : pos ≠ a.currentTargetPosition)
    (hz : (a.targetTimestamp - now) + diffTimeOf a pos = 0) :
    setTargetPosition a pos now = (a, none) := by
  have h2 : a.currentPositionState ≠ 2 := by rcases hmv with h | h <;> simp [h]
  have hnpos : ¬ (0 < (a.targetTimestamp - now) + diffTimeOf a pos) := by simp [hz]
  have hnneg : ¬ ((a.targetTimestamp - now) + diffTimeOf a pos < 0) := by simp [hz]
  simp only [setTargetPosition, if_pos h2, setTargetMoving, if_neg hne, if_neg hnpos,
    if_neg hnneg]

/-- Witness for claim C9 (amended): moving up toward 100 with deadline
15000, retargeting to 50 at `t = 5000` gives `diff = 0` and the call is
a complete no-op. -/
theorem setTargetPosition_diffZero_noop_witness :
    setTargetPosition ctxDiffZero 50 5000 = (ctxDiffZero, none) :=
  setTargetPosition_diffZero_noop ctxDiffZero 50 5000 (Or.inl rfl)
    (by norm_num [ctxDiffZero]) (by norm_num [diffTimeOf, ctxDiffZero, jsRound])

/-- Counterexample to claim C9 as stated: at `diff = 0` the code does not
behave like the `diff > 0` case — the target is not set to the requested
position and the deadline is not extended by `diffTime`. -/
theorem setTargetPosition_diffZero_cex :
    ctxDiffZero.currentPositionState = 0 ∧
    (50:ℚ) ≠ ctxDiffZero.currentTargetPosition ∧
    (ctxDiffZero.targetTimestamp - 5000) + diffTimeOf ctxDiffZero 50 = 0 ∧
    (setTargetPosition ctxDiffZero 50 5000).1.currentTargetPosition ≠ 50 ∧
    (setTargetPosition ctxDiffZero 50 5000).1.targetTimestamp ≠
      ctxDiffZero.targetTimestamp + diffTimeOf ctxDiffZero 50 := by
  norm_num [setTargetPosition, setTargetMoving, diffTimeOf, ctxDiffZero, jsRound]

/-- The duration computed by the source agrees with the duration as the
specification words it, whenever a move actually starts. -/
theorem plannedDuration_eq_spec (a : BlindContext) (pos : ℚ)
    (hne : a.lastPosition ≠ pos) :
    plannedDuration a pos = specPlannedDuration a pos := by
  unfold plannedDuration specPlannedDuration
  by_cases hlt : a.lastPosition < pos
  · have habs : |pos - a.lastPosition| = pos - a.lastPosition :=
      abs_of_pos (by linarith)
    simp only [habs, hlt, if_true, true_and, not_true, false_and, if_false]
    split_ifs with h0 hod <;> ring
  · have hgt : pos < a.lastPosition :=
      lt_of_le_of_ne (not_lt.mp hlt) (Ne.symm hne)
    have habs : |pos - a.lastPosition| = a.lastPosition - pos := by
      rw [abs_of_neg (by linarith)]
      ring
    simp only [habs, hlt, if_false, false_and, not_false_eq_true, true_and]
    split_ifs <;> ring

/-- Claim C3 (amended): starting a move from idle sets the direction to
moving-up exactly when the target lies above the rest position, sets the
movement start to `now`, keeps the rest position, emits the relay
command for the chosen direction, and sets the completion deadline to
`now` plus the specification duration rounded to the nearest 10 ms (the
source rounds the duration, in seconds, to two decimal places). -/
theorem setTargetPosition_idle_plan (a : BlindContext) (pos now : ℚ)
    (hidle : a.currentPositionState = 2) (hne : a.lastPosition ≠ pos) :
    setTargetPosition a pos now =
      ({ a with currentTargetPosition := pos
                startTimestamp := now
                targetTimestamp := now +
                  ((jsRound (specPlannedDuration a pos * 100) : ℤ) : ℚ) / 100 * 1000
                currentPositionState := if a.lastPosition < pos then 0 else 1 },
       some (prepareBlindSwitchesPayload (if a.lastPosition < pos then 0 else 1))) ∧
    ((setTargetPosition a pos now).1.currentPositionState = 0 ↔ a.lastPosition < pos) := by
  have h2 : ¬ (a.currentPositionState ≠ 2) := by simp [hidle]
  have hmain : setTargetPosition a pos now =
      ({ a with currentTargetPosition := pos
                startTimestamp := now
                targetTimestamp := now +
                  ((jsRound (specPlannedDuration a pos * 100) : ℤ) : ℚ) / 100 * 1000
                currentPositionState := if a.lastPosition < pos then 0 else 1 },
       some (prepareBlindSwitchesPayload (if a.lastPosition < pos then 0 else 1))) := by
    simp only [setTargetPosition, if_neg h2, setTargetIdle, if_neg hne,
      plannedDuration_eq_spec a pos hne]
  refine ⟨hmain, ?_⟩
  rw [hmain]
  by_cases hlt : a.lastPosition < pos <;> simp [hlt]

/-- Witness for claim C3 (amended), specification scenario 2: with a
20-second up travel, no margin and a 2-second overdrive, targeting 100
from rest 0 plans a 22000 ms motion moving up. -/
theorem setTargetPosition_idle_plan_overdrive :
    (setTargetPosition ctxOverdrive 100 0).1.targetTimestamp = 22000 ∧
    (setTargetPosition ctxOverdrive 100 0).1.currentPositionState = 0 ∧
    (setTargetPosition ctxOverdrive 100 0).2 = some (true, false) := by
  have h := setTargetPosition_idle_plan ctxOverdrive 100 0 rfl (by norm_num [ctxOverdrive])
  rw [h.1]
  norm_num [specPlannedDuration, prepareBlindSwitchesPayload, ctxOverdrive, jsRound]

/-- Counterexample to claim C3 as stated: with an up travel time of
1234 ms (1.234 s) and no margin or overdrive, targeting 51 from rest 50
plans `round(1.234)/100 = 0.01` seconds, i.e. a deadline of `now + 10`,
not `now + 1/100 × 1234 = now + 12.34` as the exact claim formula
demands — the source rounds the planned duration to two decimal places
of a second (10 ms). -/
theorem setTargetPosition_duration_rounding_cex :
    ctxFracConfig.currentPositionState = 2 ∧
    ctxFracConfig.lastPosition ≠ (51:ℚ) ∧
    (setTargetPosition ctxFracConfig 51 0).1.targetTimestamp = 10 ∧
    (0:ℚ) + |(51:ℚ) - ctxFracConfig.lastPosition| / 100 *
        ((ctxFracConfig.durationUp - ctxFracConfig.durationBMU) * 1000) = 617/50 ∧
    (setTargetPosition ctxFracConfig 51 0).1.targetTimestamp ≠
      0 + |(51:ℚ) - ctxFracConfig.lastPosition| / 100 *
        ((ctxFracConfig.durationUp - ctxFracConfig.durationBMU) * 1000) := by
  norm_num [setTargetPosition, setTargetIdle, plannedDuration, ctxFracConfig, jsRound]

/-- Claim C6 (amended): a Conflict observation, or a Stopped observation,
arriving while a motion is in flight does not itself run
`setFinalBlindsState` and sends nothing, but pins the target to the
estimate at the observation instant and pulls the completion deadline to
`now + 10`, so the active scheduler interval fires; the resulting
`setFinalBlindsState` call stops the motion, commands both relays off,
makes the observation-time estimate the new rest position, and cannot
fire again afterwards. -/
theorem conflictStop_schedules_finalize (a : BlindContext) (now t : ℚ)
    (hmv : a.currentPositionState = 0 ∨ a.currentPositionState = 1) :
    ((updateBlindStateCharacteristic a true true now).2.2 = false ∧
     (updateBlindStateCharacteristic a true true now).2.1 = [] ∧
     (updateBlindStateCharacteristic a true true now).1.currentTargetPosition =
       actualPosition a now ∧
     (updateBlindStateCharacteristic a true true now).1.currentPositionState =
       a.currentPositionState ∧
     (updateBlindStateCharacteristic a true true now).1.targetTimestamp = now + 10 ∧
     schedulerFires (updateBlindStateCharacteristic a true true now).1 (now + 10) ∧
     (setFinalBlindsState (updateBlindStateCharacteristic a true true now).1).1.currentPositionState = 2 ∧
     (setFinalBlindsState (updateBlindStateCharacteristic a true true now).1).1.lastPosition =
       actualPosition a now ∧
     (setFinalBlindsState (updateBlindStateCharacteristic a true true now).1).2 = (false, false) ∧
     ¬ schedulerFires (setFinalBlindsState (updateBlindStateCharacteristic a true true now).1).1 t) ∧
    ((updateBlindStateCharacteristic a false false now).2.2 = false ∧
     (updateBlindStateCharacteristic a false false now).2.1 = [] ∧
     (updateBlindStateCharacteristic a false false now).1.currentTargetPosition =
       actualPosition a now ∧
     (updateBlindStateCharacteristic a false false now).1.currentPositionState =
       a.currentPositionState ∧
     (updateBlindStateCharacteristic a false false now).1.targetTimestamp = now + 10 ∧
     schedulerFires (updateBlindStateCharacteristic a false false now).1 (now + 10) ∧
     (setFinalBlindsState (updateBlindStateCharacteristic a false false now).1).1.currentPositionState = 2 ∧
     (setFinalBlindsState (updateBlindStateCharacteristic a false false now).1).1.lastPosition =
       actualPosition a now ∧
     (setFinalBlindsState (updateBlindStateCharacteristic a false false now).1).2 = (false, false) ∧
     ¬ schedulerFires (setFinalBlindsState (updateBlindStateCharacteristic a false false now).1).1 t) := by
  have h2 : a.currentPositionState ≠ 2 := by rcases hmv with h | h <;> simp [h]
  have hgc : getBlindState true true = 3 := rfl
  have hgs : getBlindState false false = 2 := rfl
  have hconf : updateBlindStateCharacteristic a true true now =
      ({ a with currentTargetPosition := actualPosition a now
                targetTimestamp := now + 10 }, [], false) := by
    simp [updateBlindStateCharacteristic, hgc, setTargetPosition, setTargetMoving, h2]
  have hstop : updateBlindStateCharacteristic a false false now =
      ({ a with currentTargetPosition := actualPosition a now
                targetTimestamp := now + 10 }, [], false) := by
    simp [updateBlindStateCharacteristic, hgs, setTargetPosition, setTargetMoving, h2]
  rw [hconf, hstop]
  refine ⟨⟨rfl, rfl, rfl, rfl, rfl, ⟨h2, le_refl _⟩, rfl, rfl, rfl, ?_⟩,
          ⟨rfl, rfl, rfl, rfl, rfl, ⟨h2, le_refl _⟩, rfl, rfl, rfl, ?_⟩⟩ <;>
    simp [schedulerFires, setFinalBlindsState]

/-- Witness for claim C6 (amended), specification scenario 4: moving up
from 0 toward 100, an external Stopped observation arrives at `t = 12000`
where the estimate is 60; after the scheduler-run `setFinalBlindsState`,
the rest position is 60 and the state is stopped. -/
theorem conflictStop_schedules_finalize_scenario :
    (setFinalBlindsState (updateBlindStateCharacteristic ctxScenario4 false false 12000).1).1.lastPosition = 60 ∧
    (setFinalBlindsState (updateBlindStateCharacteristic ctxScenario4 false false 12000).1).1.currentPositionState = 2 ∧
    schedulerFires (updateBlindStateCharacteristic ctxScenario4 false false 12000).1 (12000 + 10) := by
  have h := conflictStop_schedules_finalize ctxScenario4 12000 0 (Or.inl rfl)
  refine ⟨?_, h.2.2.2.2.2.2.2.1, h.2.2.2.2.2.2.1⟩
  rw [h.2.2.2.2.2.2.2.2.1]
  norm_num [actualPosition, ctxScenario4, jsRound]

/-- Counterexample to claim C6 as stated: a Conflict observation arriving
while the accessory is idle triggers no `setFinalBlindsState` call at
all — the handler emits nothing, the state stays stopped, and no
scheduler interval is active that could ever fire. -/
theorem conflict_idle_no_finalize_cex :
    ctxIdle50.currentPositionState = 2 ∧
    (updateBlindStateCharacteristic ctxIdle50 true true 0).2.2 = false ∧
    (updateBlindStateCharacteristic ctxIdle50 true true 0).2.1 = [] ∧
    (updateBlindStateCharacteristic ctxIdle50 true true 0).1.currentPositionState = 2 ∧
    ¬ schedulerFires (updateBlindStateCharacteristic ctxIdle50 true true 0).1 1000000 := by
  norm_num [updateBlindStateCharacteristic, getBlindState, setTargetPosition, setTargetIdle,
    setTargetMoving, actualPosition, schedulerFires, ctxIdle50, jsRound]

